import Mathlib

/-!
# Employee / category HTTP backend (`src/index.js`)

A shallow embedding of the request handlers of `src/index.js` and the
properties of the statements they issue and the responses they send.

Modelling conventions.

* A JavaScript value is a `JSValue`; `truthy` is the language's `ToBoolean`
  and `jsOr` its `||` operator.
* `req.params` is a property map (`undefined` for a property that is not
  there).  `req.body` is either `undefined` (no parser produced a body) or a
  body object, again a property map; the file the upload middleware stored
  while parsing a multipart body is `req.file`.  Destructuring an `undefined`
  `req.body` throws a `TypeError`.
* `bcrypt.hashSync` and `db.query` belong to libraries, not to the repository:
  they are parameters of every handler.  A call to `bcrypt.hashSync` either
  returns a value or throws; `db.query` hands the callback either an error or
  a result.
* A handler yields an `Outcome`: the trace of its effects in order (hash
  calls, statements sent to the store, `console.error` lines, cookies
  cleared) and what became of the response.
-/

namespace EmployeeApi

/-! ## JavaScript values -/

/-- A JavaScript number: `NaN`, an infinity, or the finite value
`(-1)^neg * mant * 2^exp`.  Both zeros are `fin _ 0 _`. -/
inductive JSNumber where
  | nan
  | inf (neg : Bool)
  | fin (neg : Bool) (mant : Nat) (exp : Int)
  deriving DecidableEq, Repr

/-- The number written as the non-negative integer literal `n`. -/
def JSNumber.ofNat (n : Nat) : JSNumber := .fin false n 0

/-- A JavaScript value as it can reach a handler or be sent as JSON. -/
inductive JSValue where
  | undefined
  | null
  | bool (b : Bool)
  | number (n : JSNumber)
  | string (s : String)
  | array (items : List JSValue)
  | object (fields : List (String × JSValue))

/-- The number literal `n` as a value. -/
def JSValue.nat (n : Nat) : JSValue := .number (JSNumber.ofNat n)

/-- The language's `ToBoolean`: `undefined`, `null`, `false`, `+0`, `-0`, `NaN` and `''` are
falsy, everything else (arrays and objects included) is truthy. -/
def truthy : JSValue → Bool
  | .undefined => false
  | .null => false
  | .bool b => b
  | .number .nan => false
  | .number (.inf _) => true
  | .number (.fin _ mant _) => mant != 0
  | .string s => s != ""
  | .array _ => true
  | .object _ => true

/-- The operator `a || b`: `a` when it is truthy, else `b`. -/
def jsOr (a b : JSValue) : JSValue := if truthy a then a else b

/-! ## Requests, the store, responses -/

/-- The file object the upload middleware leaves in `req.file`; `filename` is
the name the storage engine generated for it. -/
structure UploadedFile where
  filename : String

/-- A parsed request body: its properties (`undefined` for one that is not
there) and, for a multipart body, the file the upload middleware stored. -/
structure ParsedBody where
  fields : String → JSValue
  file : Option UploadedFile

/-- What a handler reads of the request.  `body` is `none` when `req.body` is
`undefined`: no body parser accepted the request. -/
structure Request where
  params : String → JSValue
  body : Option ParsedBody

/-- The property `key` of the body object; `undefined` when the property, or
the body object itself, is not there. -/
def Request.field (req : Request) (key : String) : JSValue :=
  match req.body with
  | some b => b.fields key
  | none => .undefined

/-- The value of `req.file`: set only by the upload middleware, together with
the body object. -/
def Request.file (req : Request) : Option UploadedFile :=
  match req.body with
  | some b => b.file
  | none => none

/-- A statement handed to `db.query`: the SQL text and the bound values
(`[]` when `db.query` is called without a values argument). -/
structure Query where
  sql : String
  values : List JSValue

/-- The error object `db.query` passes to its callback. -/
structure StoreError where
  message : String

/-- A result row: column name / value pairs. -/
abbrev Row := List (String × JSValue)

/-- The result `db.query` passes to its callback on success: the rows of a
`SELECT`, or the header of a data-changing statement with its affected-row
count. -/
inductive QueryResult where
  | rows (rs : List Row)
  | header (affectedRows : Nat)

/-- The store client: what `db.query` passes to the callback for a statement. -/
abbrev Store := Query → Except StoreError QueryResult

/-- The hashing library: `bcrypt.hashSync data rounds` returns the hash
(`.ok`) or throws (`.error`). -/
abbrev HashSync := JSValue → Nat → Except JSValue JSValue

/-- The body given to `res.json`: a value built by the handler, or the store
result passed through unchanged. -/
inductive Body where
  | json (v : JSValue)
  | result (r : QueryResult)

/-- An HTTP response: status code and JSON body. -/
structure Response where
  status : Nat
  body : Body

/-- What became of the response: the handler sent one, or an exception left
the handler (or its store callback) before any was sent. -/
inductive Reply where
  | sent (r : Response)
  | threw (err : JSValue)

/-- An observable effect of a handler. -/
inductive Effect where
  | hashSync (data : JSValue) (rounds : Nat)
  | query (q : Query)
  | consoleError (args : List JSValue)
  | clearCookie (name : String)

/-- The result of running a handler: its effects in order, and the reply. -/
structure Outcome where
  trace : List Effect
  reply : Reply

/-- The statements a run sent to the store, in order. -/
def Outcome.queries (o : Outcome) : List Query :=
  o.trace.filterMap fun e => match e with
    | .query q => some q
    | _ => none

/-- The data a run passed to `bcrypt.hashSync`, in order. -/
def Outcome.hashCalls (o : Outcome) : List JSValue :=
  o.trace.filterMap fun e => match e with
    | .hashSync d _ => some d
    | _ => none

/-- The call `res.status(code).json(v)`. -/
def respond (code : Nat) (v : JSValue) : Reply := .sent ⟨code, .json v⟩

/-- The `console.error('Error executing query:', err.message)` line. -/
def logQueryError (err : StoreError) : Effect :=
  .consoleError [.string "Error executing query:", .string err.message]

/-- The body `{ Status: false, Error: 'Query Error' }`. -/
def queryErrorBody : JSValue :=
  .object [("Status", .bool false), ("Error", .string "Query Error")]

/-- Column lookup `row.key` on a result row. -/
def Row.get (row : Row) (key : String) : JSValue :=
  match row.find? (fun kv => kv.1 == key) with
  | some kv => kv.2
  | none => .undefined

/-- The expression `result[0].key`: the column `key` of the first row, or
`none` when `result[0]` is `undefined` and the property access throws a
`TypeError`. -/
def firstRowProp (result : QueryResult) (key : String) : Option JSValue :=
  match result with
  | .rows (row :: _) => some (row.get key)
  | .rows [] => none
  | .header _ => none

/-- The test `result.affectedRows === 0`; a row array has no such property. -/
def affectedRowsIsZero : QueryResult → Bool
  | .header n => n == 0
  | .rows _ => false

/-- The `TypeError` a property access on, or a destructuring of, `undefined`
throws. -/
def typeError : JSValue := .string "TypeError"

/-! ## Handlers -/

/-- Handler of `GET /category`. -/
def getCategory (db : Store) (_req : Request) : Outcome :=
  let sql := "SELECT * FROM category"
  match db ⟨sql, []⟩ with
  | .error err => ⟨[.query ⟨sql, []⟩, logQueryError err], respond 500 queryErrorBody⟩
  | .ok result => ⟨[.query ⟨sql, []⟩], .sent ⟨200, .result result⟩⟩

/-- Handler of `POST /add-category`. -/
def addCategory (db : Store) (req : Request) : Outcome :=
  match req.body with
  | none => ⟨[], .threw typeError⟩
  | some body =>
    let category := body.fields "category"
    if !truthy category then
      ⟨[], respond 400 (.object [("message", .string "Category name is required.")])⟩
    else
      let sql := "INSERT INTO category (name) VALUES (?)"
      match db ⟨sql, [category]⟩ with
      | .error err =>
        ⟨[.query ⟨sql, [category]⟩, logQueryError err], respond 500 queryErrorBody⟩
      | .ok _ =>
        ⟨[.query ⟨sql, [category]⟩],
          respond 200 (.object [("Status", .bool true),
            ("message", .string "Category added successfully.")])⟩

/-- The SQL text of the employee insert (a template literal: the line breaks
and indentation are part of the text). -/
def insertEmployeeSql : String :=
  "\n    INSERT INTO employee (name, email, password, address, salary, image, category_id)\n    VALUES (?, ?, ?, ?, ?, ?, ?)\n  "

/-- Handler of `POST /add_employee`. -/
def addEmployee (hashSync : HashSync) (db : Store) (req : Request) : Outcome :=
  match req.body with
  | none => ⟨[], .threw typeError⟩
  | some body =>
    let name := body.fields "name"
    let email := body.fields "email"
    let password := body.fields "password"
    let address := body.fields "address"
    let salary := body.fields "salary"
    let category_id := body.fields "category_id"
    let image : JSValue := match req.file with
      | some f => .string f.filename
      | none => .string ""
    if !truthy name || !truthy email || !truthy password || !truthy category_id then
      ⟨[], respond 400 (.object [("message",
        .string "Missing required fields: name, email, password, category_id.")])⟩
    else
      match hashSync password 10 with
      | .error e => ⟨[.hashSync password 10], .threw e⟩
      | .ok hashedPassword =>
        let sql := insertEmployeeSql
        let values := [name, email, hashedPassword, jsOr address (.string ""),
          jsOr salary (.nat 0), image, category_id]
        match db ⟨sql, values⟩ with
        | .error err =>
          ⟨[.hashSync password 10, .query ⟨sql, values⟩, logQueryError err],
            respond 500 (.object [("message",
              .string "An error occurred while adding the employee")])⟩
        | .ok _ =>
          ⟨[.hashSync password 10, .query ⟨sql, values⟩],
            respond 200 (.object [("message", .string "Employee added successfully.")])⟩

/-- The two arrays `updates` and `values` the update handler fills. -/
structure UpdateLists where
  updates : List String
  values : List JSValue

/-- The statement `updates.push(clause), values.push(v)`. -/
def UpdateLists.push (l : UpdateLists) (clause : String) (v : JSValue) : UpdateLists :=
  ⟨l.updates ++ [clause], l.values ++ [v]⟩

/-- Handler of `PUT /employee/:id`. -/
def putEmployee (hashSync : HashSync) (db : Store) (req : Request) : Outcome :=
  let id := req.params "id"
  match req.body with
  | none => ⟨[], .threw typeError⟩
  | some body =>
    let name := body.fields "name"
    let email := body.fields "email"
    let password := body.fields "password"
    let address := body.fields "address"
    let salary := body.fields "salary"
    let category_id := body.fields "category_id"
    let image : JSValue := match req.file with
      | some f => .string f.filename
      | none => .null
    let l : UpdateLists := ⟨[], []⟩
    let l := if truthy name then l.push "name = ?" name else l
    let l := if truthy email then l.push "email = ?" email else l
    -- the only call that can throw: the hash of a present password
    let hashed : Except JSValue (Option JSValue) :=
      if truthy password then (hashSync password 10).map some else .ok none
    match hashed with
    | .error e => ⟨[.hashSync password 10], .threw e⟩
    | .ok hashedPassword =>
      let hashTrace : List Effect := match hashedPassword with
        | some _ => [.hashSync password 10]
        | none => []
      let l := match hashedPassword with
        | some h => l.push "password = ?" h
        | none => l
      let l := if truthy address then l.push "address = ?" address else l
      let l := if truthy salary then l.push "salary = ?" salary else l
      let l := if truthy category_id then l.push "category_id = ?" category_id else l
      let l := if truthy image then l.push "image = ?" image else l
      if l.updates.length = 0 then
        ⟨hashTrace, respond 400 (.object [("Status", .bool false),
          ("message", .string "No fields to update.")])⟩
      else
        let sql := "UPDATE employee SET " ++ ", ".intercalate l.updates ++ " WHERE id = ?"
        let values := l.values ++ [id]
        match db ⟨sql, values⟩ with
        | .error err =>
          ⟨hashTrace ++ [.query ⟨sql, values⟩, logQueryError err],
            respond 500 queryErrorBody⟩
        | .ok result =>
          if affectedRowsIsZero result then
            ⟨hashTrace ++ [.query ⟨sql, values⟩],
              respond 404 (.object [("Status", .bool false),
                ("message", .string "Employee not found.")])⟩
          else
            ⟨hashTrace ++ [.query ⟨sql, values⟩],
              respond 200 (.object [("Status", .bool true),
                ("message", .string "Employee updated successfully.")])⟩

/-- Handler of `GET /auth/employee`. -/
def getEmployees (db : Store) (_req : Request) : Outcome :=
  let sql := "SELECT * FROM employee"
  match db ⟨sql, []⟩ with
  | .error err => ⟨[.query ⟨sql, []⟩, logQueryError err], respond 500 queryErrorBody⟩
  | .ok result => ⟨[.query ⟨sql, []⟩], .sent ⟨200, .result result⟩⟩

/-- Handler of `DELETE /employee/:id`. -/
def deleteEmployee (db : Store) (req : Request) : Outcome :=
  let id := req.params "id"
  let sql := "DELETE FROM employee WHERE id = ?"
  match db ⟨sql, [id]⟩ with
  | .error err => ⟨[.query ⟨sql, [id]⟩, logQueryError err], respond 500 queryErrorBody⟩
  | .ok result =>
    if affectedRowsIsZero result then
      ⟨[.query ⟨sql, [id]⟩],
        respond 404 (.object [("Status", .bool false),
          ("message", .string "Employee not found.")])⟩
    else
      ⟨[.query ⟨sql, [id]⟩],
        respond 200 (.object [("Status", .bool true),
          ("message", .string "Employee deleted successfully.")])⟩

/-- Handler of `GET /auth/employee-count`. -/
def getEmployeeCount (db : Store) (_req : Request) : Outcome :=
  let sql := "SELECT COUNT(*) AS total_employees FROM employee"
  match db ⟨sql, []⟩ with
  | .error err => ⟨[.query ⟨sql, []⟩, logQueryError err], respond 500 queryErrorBody⟩
  | .ok result =>
    match firstRowProp result "total_employees" with
    | none => ⟨[.query ⟨sql, []⟩], .threw typeError⟩
    | some n => ⟨[.query ⟨sql, []⟩], respond 200 (.object [("total_employees", n)])⟩

/-- Handler of `GET /auth/total-salary`. -/
def getTotalSalary (db : Store) (_req : Request) : Outcome :=
  let sql := "SELECT SUM(salary) AS total_salary FROM employee"
  match db ⟨sql, []⟩ with
  | .error err => ⟨[.query ⟨sql, []⟩, logQueryError err], respond 500 queryErrorBody⟩
  | .ok result =>
    match firstRowProp result "total_salary" with
    | none => ⟨[.query ⟨sql, []⟩], .threw typeError⟩
    | some n => ⟨[.query ⟨sql, []⟩], respond 200 (.object [("total_salary", n)])⟩

/-- Handler of `GET /auth/logout`; `res.json` without `res.status` sends 200. -/
def logout (_req : Request) : Outcome :=
  ⟨[.clearCookie "token"],
    respond 200 (.object [("Status", .bool true),
      ("message", .string "Logged out successfully")])⟩

/-- The nine routes the application registers. -/
inductive Route where
  | getCategory
  | addCategory
  | addEmployee
  | putEmployee
  | getEmployees
  | deleteEmployee
  | getEmployeeCount
  | getTotalSalary
  | logout
  deriving DecidableEq, Repr

/-- The router: the handler registered for each route. -/
def handle (hashSync : HashSync) (db : Store) : Route → Request → Outcome
  | .getCategory => getCategory db
  | .addCategory => addCategory db
  | .addEmployee => addEmployee hashSync db
  | .putEmployee => putEmployee hashSync db
  | .getEmployees => getEmployees db
  | .deleteEmployee => deleteEmployee db
  | .getEmployeeCount => getEmployeeCount db
  | .getTotalSalary => getTotalSalary db
  | .logout => logout

/-! ## The update statement as the specification words it -/

/-- The value of the uploaded image filename: the stored file's name, absent
(`null`) when the request carries no file. -/
def imageField (req : Request) : JSValue :=
  match req.file with
  | some f => .string f.filename
  | none => .null

/-- The fields of an update in the fixed order name, email, password, address,
salary, category_id, image: for each the column, the value submitted, and the
value to bind (the submitted value, but for the password its hash). -/
def updateFieldOrder (req : Request) (passwordHash : JSValue) :
    List (String × JSValue × JSValue) :=
  [("name", req.field "name", req.field "name"),
   ("email", req.field "email", req.field "email"),
   ("password", req.field "password", passwordHash),
   ("address", req.field "address", req.field "address"),
   ("salary", req.field "salary", req.field "salary"),
   ("category_id", req.field "category_id", req.field "category_id"),
   ("image", imageField req, imageField req)]

/-- The fields of the request that are present (truthy), in the fixed order. -/
def presentFields (req : Request) (passwordHash : JSValue) :
    List (String × JSValue × JSValue) :=
  (updateFieldOrder req passwordHash).filter fun f => truthy f.2.1

/-- The `SET` clauses the specification describes: `<field> = ?` for each
present field, in the fixed order. -/
def updateClauses (req : Request) (passwordHash : JSValue) : List String :=
  (presentFields req passwordHash).map fun f => f.1 ++ " = ?"

/-- The statement text the specification describes: the clauses of the present
fields, joined by a comma and a blank. -/
def specUpdateSql (req : Request) (passwordHash : JSValue) : String :=
  "UPDATE employee SET " ++ ", ".intercalate (updateClauses req passwordHash)
    ++ " WHERE id = ?"

/-- The bound values the specification describes: the values of the present
fields in order, then the path id. -/
def specUpdateValues (req : Request) (passwordHash : JSValue) : List JSValue :=
  (presentFields req passwordHash).map (fun f => f.2.2) ++ [req.params "id"]

/-- The number of `?` placeholders in a statement text. -/
def placeholderCount (sql : String) : Nat := sql.toList.count '?'

/-- The body of the "no fields" rejection. -/
def noFieldsBody : JSValue :=
  .object [("Status", .bool false), ("message", .string "No fields to update.")]

/-- The body of the "not found" answer of the update and delete handlers. -/
def notFoundBody : JSValue :=
  .object [("Status", .bool false), ("message", .string "Employee not found.")]

/-- The body of a successful update. -/
def updatedBody : JSValue :=
  .object [("Status", .bool true), ("message", .string "Employee updated successfully.")]

/-- The update handler as the specification describes it, for a request whose
password (when present) hashes to `passwordHash`: reject when no field is
present, else send the one statement built from the present fields and map
the store's answer to a response. -/
def putEmployeeSpec (db : Store) (req : Request) (passwordHash : JSValue) : Outcome :=
  let hashTrace : List Effect :=
    if truthy (req.field "password") then [.hashSync (req.field "password") 10] else []
  if (presentFields req passwordHash).isEmpty then
    ⟨hashTrace, respond 400 noFieldsBody⟩
  else
    let q : Query := ⟨specUpdateSql req passwordHash, specUpdateValues req passwordHash⟩
    match db q with
    | .error err => ⟨hashTrace ++ [.query q, logQueryError err], respond 500 queryErrorBody⟩
    | .ok result =>
      if affectedRowsIsZero result then ⟨hashTrace ++ [.query q], respond 404 notFoundBody⟩
      else ⟨hashTrace ++ [.query q], respond 200 updatedBody⟩

/-- The body each route sends with status 500 when its store call fails. -/
def storeFailureBody : Route → JSValue
  | .addEmployee => .object [("message", .string "An error occurred while adding the employee")]
  | _ => .object [("Status", .bool false), ("Error", .string "Query Error")]

/-- Two requests agree on which of the seven update fields are present. -/
def samePresence (req req' : Request) : Prop :=
  truthy (req.field "name") = truthy (req'.field "name")
  ∧ truthy (req.field "email") = truthy (req'.field "email")
  ∧ truthy (req.field "password") = truthy (req'.field "password")
  ∧ truthy (req.field "address") = truthy (req'.field "address")
  ∧ truthy (req.field "salary") = truthy (req'.field "salary")
  ∧ truthy (req.field "category_id") = truthy (req'.field "category_id")
  ∧ truthy (imageField req) = truthy (imageField req')

/-- The image value of a creation: the stored file's name, or the empty
string when the request carries no file. -/
def imageOrEmpty (req : Request) : JSValue :=
  match req.file with
  | some f => .string f.filename
  | none => .string ""

/-- The values the creation handler binds, in column order name, email,
password, address, salary, image, category_id, for the password hash `h`. -/
def insertValues (req : Request) (h : JSValue) : List JSValue :=
  [req.field "name", req.field "email", h, jsOr (req.field "address") (.string ""),
   jsOr (req.field "salary") (.nat 0), imageOrEmpty req, req.field "category_id"]

/-! ## Sample inputs -/

/-- A sample hashing function that treats its data as `bcrypt.hashSync` does:
it returns a (tagged) hash for a string and throws for any other value. -/
def sampleHashSync : HashSync := fun data _ =>
  match data with
  | .string s => .ok (.string ("$2b$10$" ++ s))
  | _ => .error (.string "data must be a string or Buffer")

/-- A sample store that accepts every statement and reports one affected row. -/
def sampleStore : Store := fun _ => .ok (.header 1)

/-- A sample store that accepts every statement and reports no affected row. -/
def emptyStore : Store := fun _ => .ok (.header 0)

/-- A sample store on which every statement fails with the given message. -/
def failingStore (message : String) : Store := fun _ => .error ⟨message⟩

/-- A request for path id `7` whose body holds the given properties. -/
def sampleRequest (fields : List (String × JSValue)) (file : Option UploadedFile) : Request :=
  { params := fun k => if k = "id" then .string "7" else .undefined
    body := some ⟨fun k => Row.get fields k, file⟩ }

/-- A request for path id `7` on which no parser produced a body: `req.body`
is `undefined`. -/
def bodilessRequest : Request :=
  { params := fun k => if k = "id" then .string "7" else .undefined
    body := none }

/-! ## Helper lemmas -/

/-- The value `null` is falsy. -/
theorem truthy_null : truthy .null = false := rfl

/-- The value `undefined` is falsy. -/
theorem truthy_undefined : truthy .undefined = false := rfl

/-- One conditional push appends at most one clause and one value. -/
theorem ite_push (c : Bool) (l : UpdateLists) (k : String) (v : JSValue) :
    (if c = true then l.push k v else l)
      = ⟨l.updates ++ (if c = true then [k] else []), l.values ++ (if c = true then [v] else [])⟩ := by
  cases c <;> simp [UpdateLists.push]

/-- Filtering a list keeps or drops its head and filters the rest. -/
theorem filter_cons_append {α : Type} (p : α → Bool) (a : α) (l : List α) :
    List.filter p (a :: l) = (if p a = true then [a] else []) ++ List.filter p l := by
  cases h : p a <;> simp [h]

/-- The handler refines the specification's description whenever the request
carries a body object and the hash of a present password returns. -/
theorem putEmployee_eq_spec (hashSync : HashSync) (db : Store) (req : Request)
    (h : JSValue) (hb : req.body ≠ none)
    (hhash : truthy (req.field "password") = true →
      hashSync (req.field "password") 10 = .ok h) :
    putEmployee hashSync db req = putEmployeeSpec db req h := by
  obtain ⟨params, body⟩ := req
  cases body with
  | none => exact absurd rfl hb
  | some p =>
    have himg : (match Request.file ⟨params, some p⟩ with
        | some f => JSValue.string f.filename
        | none => JSValue.null) = imageField ⟨params, some p⟩ := rfl
    have hfield : ∀ k, Request.field ⟨params, some p⟩ k = p.fields k := fun _ => rfl
    simp only [hfield] at hhash
    cases hp : truthy (p.fields "password")
    · simp only [putEmployee, putEmployeeSpec, specUpdateSql, updateClauses, specUpdateValues,
        presentFields, updateFieldOrder, hfield, hp, himg, ite_push, filter_cons_append,
        List.filter_nil, Bool.false_eq_true, if_false]
      generalize truthy (p.fields "name") = bn
      generalize truthy (p.fields "email") = be
      generalize truthy (p.fields "address") = ba
      generalize truthy (p.fields "salary") = bs
      generalize truthy (p.fields "category_id") = bc
      generalize truthy (imageField ⟨params, some p⟩) = bi
      cases bn <;> cases be <;> cases ba <;> cases bs <;> cases bc <;> cases bi <;> rfl
    · have hh := hhash hp
      simp only [putEmployee, putEmployeeSpec, specUpdateSql, updateClauses, specUpdateValues,
        presentFields, updateFieldOrder, hfield, hp, hh, himg, ite_push, filter_cons_append,
        List.filter_nil, if_true, Except.map, UpdateLists.push]
      generalize truthy (p.fields "name") = bn
      generalize truthy (p.fields "email") = be
      generalize truthy (p.fields "address") = ba
      generalize truthy (p.fields "salary") = bs
      generalize truthy (p.fields "category_id") = bc
      generalize truthy (imageField ⟨params, some p⟩) = bi
      cases bn <;> cases be <;> cases ba <;> cases bs <;> cases bc <;> cases bi <;> rfl

/-- A request without a body object makes the update handler throw at the
destructuring, before any effect. -/
theorem putEmployee_no_body (hashSync : HashSync) (db : Store) (req : Request)
    (hb : req.body = none) :
    putEmployee hashSync db req = ⟨[], .threw typeError⟩ := by
  simp only [putEmployee, hb]

/-- When the hash of a present password throws, the exception leaves the
handler: nothing is sent to the store and no response is produced. -/
theorem putEmployee_threw (hashSync : HashSync) (db : Store) (req : Request)
    (e : JSValue) (hp : truthy (req.field "password") = true)
    (he : hashSync (req.field "password") 10 = .error e) :
    putEmployee hashSync db req = ⟨[.hashSync (req.field "password") 10], .threw e⟩ := by
  obtain ⟨params, body⟩ := req
  cases body with
  | none => simp [Request.field, truthy] at hp
  | some p =>
    have hfield : ∀ k, Request.field ⟨params, some p⟩ k = p.fields k := fun _ => rfl
    simp only [hfield] at hp he ⊢
    simp only [putEmployee, hp, he, if_true, Except.map]

/-- Every run of the update handler throws at the destructuring of an absent
body, or throws at the hash call, or is the specification's run for some hash
value. -/
theorem putEmployee_cases (hashSync : HashSync) (db : Store) (req : Request) :
    putEmployee hashSync db req = ⟨[], .threw typeError⟩
    ∨ (∃ e, putEmployee hashSync db req = ⟨[.hashSync (req.field "password") 10], .threw e⟩)
    ∨ (∃ h, (truthy (req.field "password") = true →
          hashSync (req.field "password") 10 = .ok h)
        ∧ putEmployee hashSync db req = putEmployeeSpec db req h) := by
  cases hb : req.body with
  | none => exact Or.inl (putEmployee_no_body hashSync db req hb)
  | some p =>
    have hb' : req.body ≠ none := by simp [hb]
    cases hp : truthy (req.field "password")
    · exact Or.inr (Or.inr ⟨.undefined, by simp,
        putEmployee_eq_spec hashSync db req .undefined hb' (by simp [hp])⟩)
    · cases hh : hashSync (req.field "password") 10 with
      | error e => exact Or.inr (Or.inl ⟨e, putEmployee_threw hashSync db req e hp hh⟩)
      | ok h =>
        exact Or.inr (Or.inr ⟨h, fun _ => rfl,
          putEmployee_eq_spec hashSync db req h hb' (fun _ => hh)⟩)

/-- The statements of a specification run: none when no field is present,
else the one statement built from the present fields. -/
theorem putEmployeeSpec_queries (db : Store) (req : Request) (h : JSValue) :
    (putEmployeeSpec db req h).queries
      = if (presentFields req h).isEmpty then []
        else [⟨specUpdateSql req h, specUpdateValues req h⟩] := by
  unfold putEmployeeSpec
  by_cases hE : (presentFields req h).isEmpty = true
  · by_cases hp : truthy (req.field "password") = true <;> simp [hE, hp, Outcome.queries]
  · by_cases hp : truthy (req.field "password") = true <;>
      simp only [hE, hp, if_true, if_false, Bool.false_eq_true] <;>
      split <;> [skip; split; skip; split] <;> simp [Outcome.queries, logQueryError]

/-- No field is present exactly when each of the seven is falsy. -/
theorem presentFields_isEmpty (req : Request) (h : JSValue) :
    (presentFields req h).isEmpty = true ↔
      (truthy (req.field "name") = false ∧ truthy (req.field "email") = false
        ∧ truthy (req.field "password") = false ∧ truthy (req.field "address") = false
        ∧ truthy (req.field "salary") = false ∧ truthy (req.field "category_id") = false
        ∧ truthy (imageField req) = false) := by
  simp only [presentFields, updateFieldOrder, filter_cons_append, List.filter_nil]
  generalize truthy (req.field "name") = bn
  generalize truthy (req.field "email") = be
  generalize truthy (req.field "password") = bp
  generalize truthy (req.field "address") = ba
  generalize truthy (req.field "salary") = bs
  generalize truthy (req.field "category_id") = bc
  generalize truthy (imageField req) = bi
  cases bn <;> cases be <;> cases bp <;> cases ba <;> cases bs <;> cases bc <;> cases bi <;> simp

/-- A statement issued by the update handler is the specification's
statement for the hash the library returned, and at least one field is
present. -/
theorem putEmployee_query_shape (hashSync : HashSync) (db : Store) (req : Request)
    (q : Query) (hq : q ∈ (putEmployee hashSync db req).queries) :
    ∃ h, (truthy (req.field "password") = true →
          hashSync (req.field "password") 10 = .ok h)
      ∧ (presentFields req h).isEmpty = false
      ∧ q = ⟨specUpdateSql req h, specUpdateValues req h⟩
      ∧ putEmployee hashSync db req = putEmployeeSpec db req h := by
  rcases putEmployee_cases hashSync db req with he | ⟨e, he⟩ | ⟨h, hh, hrun⟩
  · rw [he] at hq
    simp [Outcome.queries] at hq
  · rw [he] at hq
    simp [Outcome.queries] at hq
  · rw [hrun, putEmployeeSpec_queries] at hq
    cases hE : (presentFields req h).isEmpty
    · rw [hE] at hq
      simp at hq
      exact ⟨h, hh, hE, hq, hrun⟩
    · rw [hE] at hq
      simp at hq

/-- The reply of an update run that issued the statement `q` is decided by
the store's answer to `q` alone. -/
theorem putEmployee_reply_of_query (hashSync : HashSync) (db : Store) (req : Request)
    (q : Query) (hq : q ∈ (putEmployee hashSync db req).queries) :
    (putEmployee hashSync db req).reply
      = match db q with
        | .error _ => respond 500 queryErrorBody
        | .ok result =>
          if affectedRowsIsZero result then respond 404 notFoundBody
          else respond 200 updatedBody := by
  obtain ⟨h, _, hE, rfl, hrun⟩ := putEmployee_query_shape hashSync db req q hq
  rw [hrun]
  simp only [putEmployeeSpec, hE, Bool.false_eq_true, if_false]
  split
  · rfl
  · split <;> rfl

/-- With a body object and none of the seven fields present the update
handler only replies 400. -/
theorem putEmployee_no_fields (hashSync : HashSync) (db : Store) (req : Request)
    (hb : req.body ≠ none)
    (hn : truthy (req.field "name") = false) (he : truthy (req.field "email") = false)
    (hp : truthy (req.field "password") = false) (ha : truthy (req.field "address") = false)
    (hs : truthy (req.field "salary") = false)
    (hc : truthy (req.field "category_id") = false)
    (hi : truthy (imageField req) = false) :
    putEmployee hashSync db req = ⟨[], respond 400 noFieldsBody⟩ := by
  have hE : (presentFields req .undefined).isEmpty = true :=
    (presentFields_isEmpty req .undefined).mpr ⟨hn, he, hp, ha, hs, hc, hi⟩
  rw [putEmployee_eq_spec hashSync db req .undefined hb (by simp [hp])]
  simp [putEmployeeSpec, hE, hp]

/-- A request without a body object makes the creation handler throw at the
destructuring, before any effect. -/
theorem addEmployee_no_body (hashSync : HashSync) (db : Store) (req : Request)
    (hb : req.body = none) :
    addEmployee hashSync db req = ⟨[], .threw typeError⟩ := by
  simp only [addEmployee, hb]

/-- A request without a body object makes the category handler throw at the
destructuring, before any effect. -/
theorem addCategory_no_body (db : Store) (req : Request) (hb : req.body = none) :
    addCategory db req = ⟨[], .threw typeError⟩ := by
  simp only [addCategory, hb]

/-- With a body object and a required field missing, the creation handler
only replies 400. -/
theorem addEmployee_missing (hashSync : HashSync) (db : Store) (req : Request)
    (hb : req.body ≠ none)
    (hmiss : truthy (req.field "name") = false ∨ truthy (req.field "email") = false
      ∨ truthy (req.field "password") = false
      ∨ truthy (req.field "category_id") = false) :
    addEmployee hashSync db req
      = ⟨[], respond 400 (.object [("message",
          .string "Missing required fields: name, email, password, category_id.")])⟩ := by
  obtain ⟨params, body⟩ := req
  cases body with
  | none => exact absurd rfl hb
  | some p =>
    have hfield : ∀ k, Request.field ⟨params, some p⟩ k = p.fields k := fun _ => rfl
    simp only [hfield] at hmiss
    rcases hmiss with hm | hm | hm | hm <;> simp [addEmployee, hm]

/-- With the four required fields present and the hash returned, the creation
handler sends exactly the insert. -/
theorem addEmployee_queries (hashSync : HashSync) (db : Store) (req : Request) (h : JSValue)
    (hn : truthy (req.field "name") = true) (he : truthy (req.field "email") = true)
    (hp : truthy (req.field "password") = true)
    (hc : truthy (req.field "category_id") = true)
    (hh : hashSync (req.field "password") 10 = .ok h) :
    (addEmployee hashSync db req).queries = [⟨insertEmployeeSql, insertValues req h⟩] := by
  obtain ⟨params, body⟩ := req
  cases body with
  | none => simp [Request.field, truthy] at hn
  | some p =>
    have hfield : ∀ k, Request.field ⟨params, some p⟩ k = p.fields k := fun _ => rfl
    simp only [hfield] at hn he hp hc hh
    simp only [addEmployee, hn, he, hp, hc, hh, Bool.not_true, Bool.or_self,
      Bool.false_eq_true, if_false]
    split <;> simp [Outcome.queries, logQueryError, insertValues, imageOrEmpty, hfield]

/-- When all four required fields are present and the hash call throws, the
exception leaves the creation handler and nothing reaches the store. -/
theorem addEmployee_threw (hashSync : HashSync) (db : Store) (req : Request) (e : JSValue)
    (hn : truthy (req.field "name") = true) (he : truthy (req.field "email") = true)
    (hp : truthy (req.field "password") = true)
    (hc : truthy (req.field "category_id") = true)
    (hh : hashSync (req.field "password") 10 = .error e) :
    addEmployee hashSync db req = ⟨[.hashSync (req.field "password") 10], .threw e⟩ := by
  obtain ⟨params, body⟩ := req
  cases body with
  | none => simp [Request.field, truthy] at hn
  | some p =>
    have hfield : ∀ k, Request.field ⟨params, some p⟩ k = p.fields k := fun _ => rfl
    simp only [hfield] at hn he hp hc hh ⊢
    simp only [addEmployee, hn, he, hp, hc, hh, Bool.not_true, Bool.or_self,
      Bool.false_eq_true, if_false]

/-- Every statement of the creation handler is the insert for the hash the
library returned. -/
theorem addEmployee_query_shape (hashSync : HashSync) (db : Store) (req : Request)
    (q : Query) (hq : q ∈ (addEmployee hashSync db req).queries) :
    ∃ h, hashSync (req.field "password") 10 = .ok h
      ∧ q = ⟨insertEmployeeSql, insertValues req h⟩ := by
  obtain ⟨params, body⟩ := req
  cases body with
  | none => simp [addEmployee, Outcome.queries] at hq
  | some p =>
    have hfield : ∀ k, Request.field ⟨params, some p⟩ k = p.fields k := fun _ => rfl
    simp only [addEmployee] at hq
    split at hq
    · simp [Outcome.queries] at hq
    · split at hq
      · simp [Outcome.queries] at hq
      · rename_i h hh
        refine ⟨h, by simpa [hfield] using hh, ?_⟩
        split at hq <;> simp [Outcome.queries, logQueryError] at hq <;>
          simpa [insertValues, imageOrEmpty, hfield] using hq

/-- A present field is one of the seven of the fixed order. -/
theorem mem_presentFields (req : Request) (h : JSValue) (f : String × JSValue × JSValue)
    (hf : f ∈ presentFields req h) :
    f ∈ updateFieldOrder req h ∧ truthy f.2.1 = true := by
  simpa [presentFields] using hf

/-- Clause and value lists built from the same fields line up: where the
clause list holds the clause `c`, the value list holds the value bound for it. -/
theorem value_at_clause (fs : List (String × JSValue × JSValue)) (rest : List JSValue)
    (c : String) (v : JSValue)
    (hfs : ∀ f ∈ fs, f.1 ++ " = ?" = c → f.2.2 = v) (i : Nat)
    (hi : (fs.map fun f => f.1 ++ " = ?")[i]? = some c) :
    (fs.map (fun f => f.2.2) ++ rest)[i]? = some v := by
  induction fs generalizing i with
  | nil => simp at hi
  | cons a l ih =>
    cases i with
    | zero =>
      simp at hi
      simp [hfs a (List.mem_cons_self a l) hi]
    | succ k =>
      simp at hi
      simpa using ih (fun f hf => hfs f (List.mem_cons_of_mem a hf)) k (by simpa using hi)

/-- A clause of the update statement belongs to a present field: a field of
the fixed order whose submitted value is truthy. -/
theorem mem_updateClauses (req : Request) (h : JSValue) (c : String)
    (hc : c ∈ updateClauses req h) :
    (c = "name = ?" ∧ truthy (req.field "name") = true)
    ∨ (c = "email = ?" ∧ truthy (req.field "email") = true)
    ∨ (c = "password = ?" ∧ truthy (req.field "password") = true)
    ∨ (c = "address = ?" ∧ truthy (req.field "address") = true)
    ∨ (c = "salary = ?" ∧ truthy (req.field "salary") = true)
    ∨ (c = "category_id = ?" ∧ truthy (req.field "category_id") = true)
    ∨ (c = "image = ?" ∧ truthy (imageField req) = true) := by
  simp only [updateClauses, List.mem_map] at hc
  obtain ⟨f, hf, rfl⟩ := hc
  obtain ⟨hmem, ht⟩ := mem_presentFields req h f hf
  simp only [updateFieldOrder, List.mem_cons, List.mem_singleton, List.not_mem_nil,
    or_false] at hmem
  rcases hmem with rfl | rfl | rfl | rfl | rfl | rfl | rfl
  · exact Or.inl ⟨rfl, ht⟩
  · exact Or.inr (Or.inl ⟨rfl, ht⟩)
  · exact Or.inr (Or.inr (Or.inl ⟨rfl, ht⟩))
  · exact Or.inr (Or.inr (Or.inr (Or.inl ⟨rfl, ht⟩)))
  · exact Or.inr (Or.inr (Or.inr (Or.inr (Or.inl ⟨rfl, ht⟩))))
  · exact Or.inr (Or.inr (Or.inr (Or.inr (Or.inr (Or.inl ⟨rfl, ht⟩)))))
  · exact Or.inr (Or.inr (Or.inr (Or.inr (Or.inr (Or.inr ⟨rfl, ht⟩)))))

/-- A sample request carries a body object. -/
theorem sampleRequest_body (fields : List (String × JSValue)) (file : Option UploadedFile) :
    (sampleRequest fields file).body ≠ none :=
  fun hb => Option.noConfusion hb

/-- Distinct strings are distinct values. -/
theorem string_ne (a b : String) (hab : a ≠ b) : JSValue.string a ≠ JSValue.string b :=
  fun hEq => hab (by injection hEq)

/-- A run whose statement the store rejected replies 500 with the route's
fixed body. -/
theorem handle_reply_of_failed_query (hashSync : HashSync) (db : Store) (route : Route)
    (req : Request) (q : Query) (e : StoreError)
    (hq : q ∈ (handle hashSync db route req).queries) (hf : db q = .error e) :
    (handle hashSync db route req).reply = respond 500 (storeFailureBody route) := by
  cases route with
  | getCategory =>
    simp only [handle, getCategory] at hq ⊢
    split at hq
    · rfl
    · simp [Outcome.queries] at hq
      subst hq
      simp_all
  | addCategory =>
    obtain ⟨params, body⟩ := req
    cases body with
    | none => simp [handle, addCategory, Outcome.queries] at hq
    | some p =>
      simp only [handle, addCategory] at hq ⊢
      by_cases hc : truthy (p.fields "category") = true
      · simp only [hc, Bool.not_true, Bool.false_eq_true, if_false] at hq ⊢
        split at hq
        · rfl
        · simp [Outcome.queries] at hq
          subst hq
          simp_all
      · simp [hc, Outcome.queries] at hq
  | addEmployee =>
    obtain ⟨params, body⟩ := req
    cases body with
    | none => simp [handle, addEmployee, Outcome.queries] at hq
    | some p =>
      simp only [handle, addEmployee] at hq ⊢
      by_cases hreq : (!truthy (p.fields "name") || !truthy (p.fields "email")
          || !truthy (p.fields "password") || !truthy (p.fields "category_id")) = true
      · simp [hreq, Outcome.queries] at hq
      · rw [if_neg hreq] at hq ⊢
        split at hq
        · simp [Outcome.queries] at hq
        · split at hq
          · rfl
          · simp [Outcome.queries] at hq
            subst hq
            simp_all
  | putEmployee =>
    simp only [handle] at hq ⊢
    rw [putEmployee_reply_of_query hashSync db req q hq, hf]
    rfl
  | getEmployees =>
    simp only [handle, getEmployees] at hq ⊢
    split at hq
    · rfl
    · simp [Outcome.queries] at hq
      subst hq
      simp_all
  | deleteEmployee =>
    simp only [handle, deleteEmployee] at hq ⊢
    split at hq
    · rfl
    · have hq2 : q = ⟨"DELETE FROM employee WHERE id = ?", [req.params "id"]⟩ := by
        split at hq <;> simp [Outcome.queries] at hq <;> exact hq
      subst hq2
      simp_all
  | getEmployeeCount =>
    simp only [handle, getEmployeeCount] at hq ⊢
    split at hq
    · rfl
    · have hq2 : q = ⟨"SELECT COUNT(*) AS total_employees FROM employee", []⟩ := by
        split at hq <;> simp [Outcome.queries] at hq <;> exact hq
      subst hq2
      simp_all
  | getTotalSalary =>
    simp only [handle, getTotalSalary] at hq ⊢
    split at hq
    · rfl
    · have hq2 : q = ⟨"SELECT SUM(salary) AS total_salary FROM employee", []⟩ := by
        split at hq <;> simp [Outcome.queries] at hq <;> exact hq
      subst hq2
      simp_all
  | logout =>
    simp [handle, logout, Outcome.queries] at hq

/-- The statement text is a function of the presence pattern alone. -/
theorem specUpdateSql_congr (req req' : Request) (h h' : JSValue)
    (hsame : samePresence req req') :
    specUpdateSql req h = specUpdateSql req' h' := by
  obtain ⟨h1, h2, h3, h4, h5, h6, h7⟩ := hsame
  simp only [specUpdateSql, updateClauses, presentFields, updateFieldOrder, filter_cons_append,
    List.filter_nil, h1, h2, h3, h4, h5, h6, h7]
  generalize truthy (req'.field "name") = bn
  generalize truthy (req'.field "email") = be
  generalize truthy (req'.field "password") = bp
  generalize truthy (req'.field "address") = ba
  generalize truthy (req'.field "salary") = bs
  generalize truthy (req'.field "category_id") = bc
  generalize truthy (imageField req') = bi
  cases bn <;> cases be <;> cases bp <;> cases ba <;> cases bs <;> cases bc <;> cases bi <;> rfl

/-- Placeholders and bound values of the specification's statement match in
number, and there are at most eight of them. -/
theorem specUpdate_placeholders (req : Request) (h : JSValue) :
    placeholderCount (specUpdateSql req h) = (specUpdateValues req h).length
    ∧ (specUpdateValues req h).length = (presentFields req h).length + 1
    ∧ (presentFields req h).length ≤ 7 := by
  simp only [specUpdateSql, updateClauses, specUpdateValues, presentFields, updateFieldOrder,
    filter_cons_append, List.filter_nil]
  generalize truthy (req.field "name") = bn
  generalize truthy (req.field "email") = be
  generalize truthy (req.field "password") = bp
  generalize truthy (req.field "address") = ba
  generalize truthy (req.field "salary") = bs
  generalize truthy (req.field "category_id") = bc
  generalize truthy (imageField req) = bi
  cases bn <;> cases be <;> cases bp <;> cases ba <;> cases bs <;> cases bc <;> cases bi <;>
    exact ⟨rfl, rfl, by simp⟩

/-! ## The claims -/

/-- Claim C1 as stated fails: a `PUT /employee/:id` request with present
name and salary and the non-string password `12345`.  Fields are present, yet
the hash call throws, the exception leaves the handler and no statement is
issued. -/
theorem put_present_fields_without_statement :
    truthy ((sampleRequest [("name", .string "Ana"), ("password", .nat 12345),
        ("salary", .nat 5000)] none).field "name") = true
    ∧ truthy ((sampleRequest [("name", .string "Ana"), ("password", .nat 12345),
        ("salary", .nat 5000)] none).field "password") = true
    ∧ (putEmployee sampleHashSync sampleStore
        (sampleRequest [("name", .string "Ana"), ("password", .nat 12345),
          ("salary", .nat 5000)] none)).queries = []
    ∧ (putEmployee sampleHashSync sampleStore
        (sampleRequest [("name", .string "Ana"), ("password", .nat 12345),
          ("salary", .nat 5000)] none)).reply
      = .threw (.string "data must be a string or Buffer") :=
  ⟨by decide, by decide, rfl, rfl⟩

/-- Claim C1, amended. A `PUT /employee/:id` request with at least one present
(truthy) field among name, email, password, address, salary, category_id and
the uploaded image filename, whose password hash (when a password is present)
is returned by the hashing library as `h`, issues exactly one statement: its
text is `UPDATE employee SET <clauses> WHERE id = ?` with one `<field> = ?`
clause per present field and no other, joined by `", "`, in the fixed field
order, and its bound values are the values of those fields in that order (the
password replaced by `h`) followed by the path id.  In particular a request
whose only present field is salary = 5000 issues
`UPDATE employee SET salary = ? WHERE id = ?` with values `[5000, id]`. -/
theorem put_statement_names_exactly_present_fields
    (hashSync : HashSync) (db : Store) (req : Request) (h : JSValue)
    (hpresent : truthy (req.field "name") = true ∨ truthy (req.field "email") = true
      ∨ truthy (req.field "password") = true ∨ truthy (req.field "address") = true
      ∨ truthy (req.field "salary") = true ∨ truthy (req.field "category_id") = true
      ∨ truthy (imageField req) = true)
    (hhash : truthy (req.field "password") = true →
      hashSync (req.field "password") 10 = .ok h) :
    (putEmployee hashSync db req).queries
        = [⟨specUpdateSql req h, specUpdateValues req h⟩]
    ∧ (req.field "salary" = .nat 5000 ∧ truthy (req.field "name") = false
        ∧ truthy (req.field "email") = false ∧ truthy (req.field "password") = false
        ∧ truthy (req.field "address") = false ∧ truthy (req.field "category_id") = false
        ∧ truthy (imageField req) = false →
      (putEmployee hashSync db req).queries
        = [⟨"UPDATE employee SET salary = ? WHERE id = ?", [.nat 5000, req.params "id"]⟩]) := by
  have hb : req.body ≠ none := by
    intro hb
    simp [Request.field, imageField, Request.file, hb, truthy] at hpresent
  have hne : (presentFields req h).isEmpty = false := by
    cases hE : (presentFields req h).isEmpty
    · rfl
    · rw [presentFields_isEmpty] at hE
      obtain ⟨h1, h2, h3, h4, h5, h6, h7⟩ := hE
      simp [h1, h2, h3, h4, h5, h6, h7] at hpresent
  have hq : (putEmployee hashSync db req).queries
      = [⟨specUpdateSql req h, specUpdateValues req h⟩] := by
    rw [putEmployee_eq_spec hashSync db req h hb hhash, putEmployeeSpec_queries, hne]
    rfl
  refine ⟨hq, ?_⟩
  rintro ⟨hs, hn, he, hp, ha, hc, hi⟩
  have hst : truthy (req.field "salary") = true := by rw [hs]; rfl
  rw [hq]
  simp only [specUpdateSql, updateClauses, specUpdateValues, presentFields, updateFieldOrder,
    filter_cons_append, List.filter_nil, hn, he, hp, ha, hc, hi, hst, hs,
    Bool.false_eq_true, if_true, if_false]
  rfl

theorem put_statement_names_exactly_present_fields_witness :
    (putEmployee sampleHashSync sampleStore
        (sampleRequest [("salary", .nat 5000)] none)).queries
      = [⟨"UPDATE employee SET salary = ? WHERE id = ?", [.nat 5000, .string "7"]⟩]
    ∧ (putEmployee sampleHashSync sampleStore
        (sampleRequest [("password", .string "s3cret"), ("email", .string "ana@example.org")]
          none)).queries
      = [⟨"UPDATE employee SET email = ?, password = ? WHERE id = ?",
          [.string "ana@example.org", .string "$2b$10$s3cret", .string "7"]⟩] :=
  ⟨(put_statement_names_exactly_present_fields sampleHashSync sampleStore
      (sampleRequest [("salary", .nat 5000)] none) .undefined
      (by decide) (fun hp => absurd hp (by decide))).2
    ⟨rfl, by decide, by decide, by decide, by decide, by decide, by decide⟩,
   (put_statement_names_exactly_present_fields sampleHashSync sampleStore
      (sampleRequest [("password", .string "s3cret"), ("email", .string "ana@example.org")]
        none) (.string "$2b$10$s3cret")
      (by decide) (fun _ => rfl)).1⟩

/-- Claim C2 as stated fails: a `PUT /employee/:id` request on which no parser
produced a body.  None of the seven fields is present, yet the handler does
not answer 400: destructuring the `undefined` body throws. -/
theorem put_without_body_throws :
    truthy (bodilessRequest.field "name") = false
    ∧ truthy (bodilessRequest.field "email") = false
    ∧ truthy (bodilessRequest.field "password") = false
    ∧ truthy (bodilessRequest.field "address") = false
    ∧ truthy (bodilessRequest.field "salary") = false
    ∧ truthy (bodilessRequest.field "category_id") = false
    ∧ truthy (imageField bodilessRequest) = false
    ∧ putEmployee sampleHashSync sampleStore bodilessRequest
      = ⟨[], .threw (.string "TypeError")⟩ :=
  ⟨rfl, rfl, rfl, rfl, rfl, rfl, rfl, rfl⟩

/-- Claim C2, amended. A `PUT /employee/:id` request in which none of name,
email, password, address, salary, category_id and the image file is present
issues no statement and calls no hash, whatever the path id is; if the request
carries a body object, the run has no effect at all and the response is 400
with body `{Status: false, message: 'No fields to update.'}`; if it carries
none, the handler throws at the destructuring instead of responding. -/
theorem put_without_fields_rejected
    (hashSync : HashSync) (db : Store) (req : Request)
    (hn : truthy (req.field "name") = false) (he : truthy (req.field "email") = false)
    (hp : truthy (req.field "password") = false) (ha : truthy (req.field "address") = false)
    (hs : truthy (req.field "salary") = false)
    (hc : truthy (req.field "category_id") = false)
    (hi : truthy (imageField req) = false) :
    (putEmployee hashSync db req).queries = []
    ∧ (putEmployee hashSync db req).hashCalls = []
    ∧ (req.body ≠ none →
      putEmployee hashSync db req
        = ⟨[], .sent ⟨400, .json (.object [("Status", .bool false),
            ("message", .string "No fields to update.")])⟩⟩)
    ∧ (req.body = none → putEmployee hashSync db req = ⟨[], .threw typeError⟩) := by
  have hsome : req.body ≠ none →
      putEmployee hashSync db req
        = ⟨[], .sent ⟨400, .json (.object [("Status", .bool false),
            ("message", .string "No fields to update.")])⟩⟩ :=
    fun hb => putEmployee_no_fields hashSync db req hb hn he hp ha hs hc hi
  have hnone : req.body = none → putEmployee hashSync db req = ⟨[], .threw typeError⟩ :=
    putEmployee_no_body hashSync db req
  refine ⟨?_, ?_, hsome, hnone⟩
  · cases hb : req.body with
    | none => rw [hnone hb]; rfl
    | some p => rw [hsome (by simp [hb])]; rfl
  · cases hb : req.body with
    | none => rw [hnone hb]; rfl
    | some p => rw [hsome (by simp [hb])]; rfl

theorem put_without_fields_rejected_witness :
    putEmployee sampleHashSync sampleStore (sampleRequest [("nickname", .string "Al")] none)
      = ⟨[], .sent ⟨400, .json (.object [("Status", .bool false),
          ("message", .string "No fields to update.")])⟩⟩ :=
  (put_without_fields_rejected sampleHashSync sampleStore
      (sampleRequest [("nickname", .string "Al")] none)
      (by decide) (by decide) (by decide) (by decide) (by decide) (by decide)
      (by decide)).2.2.1 (sampleRequest_body _ _)

/-- Claim C3 as stated fails, twice.  A `POST /add_employee` request on which
no parser produced a body misses all four required fields, yet the handler
does not answer 400: the destructuring throws.  And a request with all four
required fields present, whose password is the non-string `12345`, issues no
`INSERT`: the hash call throws. -/
theorem add_employee_without_body_or_hash :
    truthy (bodilessRequest.field "name") = false
    ∧ addEmployee sampleHashSync sampleStore bodilessRequest
      = ⟨[], .threw (.string "TypeError")⟩
    ∧ truthy ((sampleRequest [("name", .string "Ana"), ("email", .string "ana@example.org"),
        ("password", .nat 12345), ("category_id", .nat 2)] none).field "password") = true
    ∧ (addEmployee sampleHashSync sampleStore
        (sampleRequest [("name", .string "Ana"), ("email", .string "ana@example.org"),
          ("password", .nat 12345), ("category_id", .nat 2)] none)).queries = []
    ∧ (addEmployee sampleHashSync sampleStore
        (sampleRequest [("name", .string "Ana"), ("email", .string "ana@example.org"),
          ("password", .nat 12345), ("category_id", .nat 2)] none)).reply
      = .threw (.string "data must be a string or Buffer") :=
  ⟨rfl, rfl, by decide, rfl, rfl⟩

/-- Claim C3, amended. A `POST /add_employee` request in which at least one of
name, email, password, category_id is absent or empty (falsy) never issues an
`INSERT`: there is no store call and no password hashing; if the request
carries a body object the response is 400, if it carries none the handler
throws at the destructuring instead of responding.  Conversely, when all four
are present and the hashing library returns the hash `h`, exactly one
statement is issued, the `INSERT INTO employee`; when the hash call throws,
none is. -/
theorem add_employee_requires_fields
    (hashSync : HashSync) (db : Store) (req : Request) :
    ((truthy (req.field "name") = false ∨ truthy (req.field "email") = false
        ∨ truthy (req.field "password") = false
        ∨ truthy (req.field "category_id") = false) →
      (addEmployee hashSync db req).queries = []
        ∧ (addEmployee hashSync db req).hashCalls = []
        ∧ (req.body ≠ none →
          addEmployee hashSync db req
            = ⟨[], .sent ⟨400, .json (.object [("message",
                .string "Missing required fields: name, email, password, category_id.")])⟩⟩)
        ∧ (req.body = none → addEmployee hashSync db req = ⟨[], .threw typeError⟩))
    ∧ (truthy (req.field "name") = true → truthy (req.field "email") = true →
        truthy (req.field "password") = true → truthy (req.field "category_id") = true →
        (∀ h, hashSync (req.field "password") 10 = .ok h →
          (addEmployee hashSync db req).queries
            = [⟨insertEmployeeSql, insertValues req h⟩])
        ∧ (∀ e, hashSync (req.field "password") 10 = .error e →
          (addEmployee hashSync db req).queries = [])) := by
  constructor
  · intro hmiss
    have hsome : req.body ≠ none →
        addEmployee hashSync db req
          = ⟨[], .sent ⟨400, .json (.object [("message",
              .string "Missing required fields: name, email, password, category_id.")])⟩⟩ :=
      fun hb => addEmployee_missing hashSync db req hb hmiss
    have hnone : req.body = none → addEmployee hashSync db req = ⟨[], .threw typeError⟩ :=
      addEmployee_no_body hashSync db req
    refine ⟨?_, ?_, hsome, hnone⟩
    · cases hb : req.body with
      | none => rw [hnone hb]; rfl
      | some p => rw [hsome (by simp [hb])]; rfl
    · cases hb : req.body with
      | none => rw [hnone hb]; rfl
      | some p => rw [hsome (by simp [hb])]; rfl
  · intro hn he hp hc
    refine ⟨fun h hh => addEmployee_queries hashSync db req h hn he hp hc hh, ?_⟩
    intro e hh
    rw [addEmployee_threw hashSync db req e hn he hp hc hh]
    rfl

theorem add_employee_requires_fields_witness :
    (addEmployee sampleHashSync sampleStore
        (sampleRequest [("name", .string "Ana"), ("email", .string "ana@example.org"),
          ("category_id", .nat 2)] none)
      = ⟨[], .sent ⟨400, .json (.object [("message",
            .string "Missing required fields: name, email, password, category_id.")])⟩⟩)
    ∧ (addEmployee sampleHashSync sampleStore
        (sampleRequest [("name", .string "Ana"), ("email", .string "ana@example.org"),
          ("password", .string "s3cret"), ("category_id", .nat 2)] none)).queries
      = [⟨insertEmployeeSql,
          [.string "Ana", .string "ana@example.org", .string "$2b$10$s3cret", .string "",
           .nat 0, .string "", .nat 2]⟩] :=
  ⟨((add_employee_requires_fields sampleHashSync sampleStore
        (sampleRequest [("name", .string "Ana"), ("email", .string "ana@example.org"),
          ("category_id", .nat 2)] none)).1
      (Or.inr (Or.inr (Or.inl (by decide))))).2.2.1 (sampleRequest_body _ _),
   ((add_employee_requires_fields sampleHashSync sampleStore
        (sampleRequest [("name", .string "Ana"), ("email", .string "ana@example.org"),
          ("password", .string "s3cret"), ("category_id", .nat 2)] none)).2
      (by decide) (by decide) (by decide) (by decide)).1 (.string "$2b$10$s3cret") rfl⟩

/-- Claim C4 as stated fails: a `POST /add-category` request on which no parser
produced a body has no category name, yet the handler does not answer 400:
destructuring the `undefined` body throws. -/
theorem add_category_without_body_throws :
    truthy (bodilessRequest.field "category") = false
    ∧ addCategory sampleStore bodilessRequest = ⟨[], .threw (.string "TypeError")⟩ :=
  ⟨rfl, rfl⟩

/-- Claim C4, amended. A `POST /add-category` request whose category name is
absent or empty (falsy) never issues an `INSERT`; if the request carries a
body object the response is 400, if it carries none the handler throws at the
destructuring instead of responding.  When the name is present, exactly one
statement is issued, the `INSERT` into `category` with that name as its only
bound value. -/
theorem add_category_requires_name (db : Store) (req : Request) :
    (truthy (req.field "category") = false →
      (addCategory db req).queries = []
        ∧ (req.body ≠ none →
          addCategory db req
            = ⟨[], .sent ⟨400, .json (.object [("message",
                .string "Category name is required.")])⟩⟩)
        ∧ (req.body = none → addCategory db req = ⟨[], .threw typeError⟩))
    ∧ (truthy (req.field "category") = true →
      (addCategory db req).queries
        = [⟨"INSERT INTO category (name) VALUES (?)", [req.field "category"]⟩]) := by
  obtain ⟨params, body⟩ := req
  cases body with
  | none =>
    refine ⟨fun _ => ⟨rfl, fun hb => absurd rfl hb, fun _ => rfl⟩, ?_⟩
    intro hm
    simp [Request.field, truthy] at hm
  | some p =>
    have hfield : ∀ k, Request.field ⟨params, some p⟩ k = p.fields k := fun _ => rfl
    simp only [hfield]
    constructor
    · intro hm
      have hrun : addCategory db ⟨params, some p⟩
          = ⟨[], .sent ⟨400, .json (.object [("message",
              .string "Category name is required.")])⟩⟩ := by
        simp [addCategory, hm, respond]
      exact ⟨by rw [hrun]; rfl, fun _ => hrun, fun hb => by simp at hb⟩
    · intro hm
      simp only [addCategory, hm, Bool.not_true, Bool.false_eq_true, if_false]
      split <;> simp [Outcome.queries, logQueryError]

theorem add_category_requires_name_witness :
    (addCategory sampleStore (sampleRequest [("category", .string "")] none)
      = ⟨[], .sent ⟨400, .json (.object [("message",
            .string "Category name is required.")])⟩⟩)
    ∧ (addCategory sampleStore (sampleRequest [("category", .string "IT")] none)).queries
      = [⟨"INSERT INTO category (name) VALUES (?)", [.string "IT"]⟩] :=
  ⟨((add_category_requires_name sampleStore
        (sampleRequest [("category", .string "")] none)).1 (by decide)).2.1
      (sampleRequest_body _ _),
   (add_category_requires_name sampleStore
        (sampleRequest [("category", .string "IT")] none)).2 (by decide)⟩

/-- Claim C5. When a `PUT /employee/:id` run has sent its statement `q` to the
store and the store answered with a result, the response is 404 with body
`{Status: false, message: 'Employee not found.'}` if and only if the store
reports zero affected rows, and otherwise it is 200 with
`{Status: true, message: 'Employee updated successfully.'}`; with zero
affected rows the success response is never sent. -/
theorem put_not_found_iff_zero_rows
    (hashSync : HashSync) (db : Store) (req : Request) (q : Query) (result : QueryResult)
    (hq : q ∈ (putEmployee hashSync db req).queries) (hok : db q = .ok result) :
    ((putEmployee hashSync db req).reply
        = .sent ⟨404, .json (.object [("Status", .bool false),
            ("message", .string "Employee not found.")])⟩
      ↔ result = .header 0)
    ∧ (result ≠ .header 0 →
      (putEmployee hashSync db req).reply
        = .sent ⟨200, .json (.object [("Status", .bool true),
            ("message", .string "Employee updated successfully.")])⟩)
    ∧ (result = .header 0 →
      (putEmployee hashSync db req).reply
        ≠ .sent ⟨200, .json (.object [("Status", .bool true),
            ("message", .string "Employee updated successfully.")])⟩) := by
  rw [putEmployee_reply_of_query hashSync db req q hq, hok]
  cases result with
  | rows rs => simp [affectedRowsIsZero, respond, updatedBody]
  | header n =>
    cases n with
    | zero => simp [affectedRowsIsZero, respond, notFoundBody]
    | succ k => simp [affectedRowsIsZero, respond, updatedBody]

theorem put_not_found_iff_zero_rows_witness :
    (putEmployee sampleHashSync emptyStore (sampleRequest [("salary", .nat 5000)] none)).reply
      = .sent ⟨404, .json (.object [("Status", .bool false),
          ("message", .string "Employee not found.")])⟩ :=
  (put_not_found_iff_zero_rows sampleHashSync emptyStore
      (sampleRequest [("salary", .nat 5000)] none)
      ⟨"UPDATE employee SET salary = ? WHERE id = ?", [.nat 5000, .string "7"]⟩ (.header 0)
      (List.mem_singleton.mpr rfl) rfl).1.mpr rfl

/-- Claim C6. A `DELETE /employee/:id` request issues exactly one statement,
`DELETE FROM employee WHERE id = ?` bound to the path id; when the store
answers it with a result, the response is 404 with `'Employee not found.'` if
and only if the affected-row count is zero, and otherwise 200 with the
confirmation `'Employee deleted successfully.'`. -/
theorem delete_by_id_statement_and_reply
    (db : Store) (req : Request) (result : QueryResult)
    (hok : db ⟨"DELETE FROM employee WHERE id = ?", [req.params "id"]⟩ = .ok result) :
    (deleteEmployee db req).queries
        = [⟨"DELETE FROM employee WHERE id = ?", [req.params "id"]⟩]
    ∧ ((deleteEmployee db req).reply
          = .sent ⟨404, .json (.object [("Status", .bool false),
              ("message", .string "Employee not found.")])⟩
        ↔ result = .header 0)
    ∧ (result ≠ .header 0 →
      (deleteEmployee db req).reply
        = .sent ⟨200, .json (.object [("Status", .bool true),
            ("message", .string "Employee deleted successfully.")])⟩) := by
  simp only [deleteEmployee, hok]
  cases result with
  | rows rs => simp [affectedRowsIsZero, respond, Outcome.queries]
  | header n =>
    cases n with
    | zero => simp [affectedRowsIsZero, respond, Outcome.queries]
    | succ k => simp [affectedRowsIsZero, respond, Outcome.queries]

theorem delete_by_id_statement_and_reply_witness :
    (deleteEmployee emptyStore (sampleRequest [] none)).queries
        = [⟨"DELETE FROM employee WHERE id = ?", [.string "7"]⟩]
    ∧ (deleteEmployee emptyStore (sampleRequest [] none)).reply
        = .sent ⟨404, .json (.object [("Status", .bool false),
            ("message", .string "Employee not found.")])⟩ :=
  ⟨(delete_by_id_statement_and_reply emptyStore (sampleRequest [] none) (.header 0) rfl).1,
   (delete_by_id_statement_and_reply emptyStore (sampleRequest [] none) (.header 0) rfl).2.1.mpr
      rfl⟩

/-- Claim C8. For every route that calls the store (category list, category
create, employee create, employee update, employee list, employee delete,
employee count, total salary): when the statement a run issued is rejected by
the store, the response has status 500 and the route's fixed body, whatever
the error is; two runs of the same request whose store calls fail, with
different errors, send the same response. -/
theorem store_failure_reply_is_fixed
    (route : Route) (req : Request) (hashSync₁ hashSync₂ : HashSync) (db₁ db₂ : Store)
    (q₁ q₂ : Query) (e₁ e₂ : StoreError)
    (hq₁ : q₁ ∈ (handle hashSync₁ db₁ route req).queries) (hf₁ : db₁ q₁ = .error e₁)
    (hq₂ : q₂ ∈ (handle hashSync₂ db₂ route req).queries) (hf₂ : db₂ q₂ = .error e₂) :
    (handle hashSync₁ db₁ route req).reply = .sent ⟨500, .json (storeFailureBody route)⟩
    ∧ (handle hashSync₁ db₁ route req).reply = (handle hashSync₂ db₂ route req).reply := by
  rw [handle_reply_of_failed_query hashSync₁ db₁ route req q₁ e₁ hq₁ hf₁,
    handle_reply_of_failed_query hashSync₂ db₂ route req q₂ e₂ hq₂ hf₂]
  exact ⟨rfl, rfl⟩

theorem store_failure_reply_is_fixed_witness :
    (handle sampleHashSync (failingStore "ER_LOCK_DEADLOCK") .deleteEmployee
        (sampleRequest [] none)).reply
      = .sent ⟨500, .json (.object [("Status", .bool false), ("Error", .string "Query Error")])⟩
    ∧ (handle sampleHashSync (failingStore "ER_LOCK_DEADLOCK") .deleteEmployee
        (sampleRequest [] none)).reply
      = (handle sampleHashSync (failingStore "ECONNRESET") .deleteEmployee
        (sampleRequest [] none)).reply :=
  store_failure_reply_is_fixed .deleteEmployee (sampleRequest [] none)
    sampleHashSync sampleHashSync (failingStore "ER_LOCK_DEADLOCK") (failingStore "ECONNRESET")
    ⟨"DELETE FROM employee WHERE id = ?", [.string "7"]⟩
    ⟨"DELETE FROM employee WHERE id = ?", [.string "7"]⟩
    ⟨"ER_LOCK_DEADLOCK"⟩ ⟨"ECONNRESET"⟩
    (List.mem_singleton.mpr rfl) rfl (List.mem_singleton.mpr rfl) rfl

/-- Claim C10. Every statement `q` a `PUT /employee/:id` run issues is
well-formed with respect to its parameters: the number of `?` placeholders in
its text equals the number of bound values, that number is between 2 and 8,
the last bound value is the path id, and the text depends only on which fields
are present: any other run, of a request with the same presence pattern but
arbitrary values, hash function and store, issues the same text. -/
theorem put_statement_well_formed
    (hashSync : HashSync) (db : Store) (req : Request) (q : Query)
    (hq : q ∈ (putEmployee hashSync db req).queries) :
    placeholderCount q.sql = q.values.length
    ∧ 2 ≤ placeholderCount q.sql ∧ placeholderCount q.sql ≤ 8
    ∧ q.values.getLast? = some (req.params "id")
    ∧ (∀ (hashSync' : HashSync) (db' : Store) (req' : Request) (q' : Query),
        q' ∈ (putEmployee hashSync' db' req').queries → samePresence req req' →
        q'.sql = q.sql) := by
  obtain ⟨h, _, hE, rfl, _⟩ := putEmployee_query_shape hashSync db req q hq
  obtain ⟨hcount, hlen, hle⟩ := specUpdate_placeholders req h
  have hpos : 1 ≤ (presentFields req h).length := by
    cases hl : presentFields req h with
    | nil => simp [hl] at hE
    | cons a l => simp
  refine ⟨hcount, ?_, ?_, ?_, ?_⟩
  · show 2 ≤ placeholderCount (specUpdateSql req h)
    omega
  · show placeholderCount (specUpdateSql req h) ≤ 8
    omega
  · simp [specUpdateValues]
  · intro hashSync' db' req' q' hq' hsame
    obtain ⟨h', _, _, rfl, _⟩ := putEmployee_query_shape hashSync' db' req' q' hq'
    exact (specUpdateSql_congr req req' h h' hsame).symm

theorem put_statement_well_formed_witness :
    placeholderCount "UPDATE employee SET name = ?, password = ?, image = ? WHERE id = ?" = 4
    ∧ (putEmployee sampleHashSync sampleStore
        (sampleRequest [("name", .string "Ana"), ("password", .string "s3cret")]
          (some ⟨"image_1700000000000.png"⟩))).queries
      = [⟨"UPDATE employee SET name = ?, password = ?, image = ? WHERE id = ?",
          [.string "Ana", .string "$2b$10$s3cret", .string "image_1700000000000.png",
           .string "7"]⟩] :=
  ⟨(put_statement_well_formed sampleHashSync sampleStore
      (sampleRequest [("name", .string "Ana"), ("password", .string "s3cret")]
        (some ⟨"image_1700000000000.png"⟩))
      ⟨"UPDATE employee SET name = ?, password = ?, image = ? WHERE id = ?",
        [.string "Ana", .string "$2b$10$s3cret", .string "image_1700000000000.png",
         .string "7"]⟩
      (List.mem_singleton.mpr rfl)).1, rfl⟩

/-- Claim C9 as stated fails, twice.  A `PUT /employee/:id` whose salary is the
string `'0'`, which is how a multipart form delivers a supplied 0: the string
is truthy, so the salary is not treated as absent and a `salary = ?` clause is
issued.  And a creation with the required fields present, salary `0` and the
non-string password `12345`: the hash call throws and nothing is stored. -/
theorem supplied_zero_may_be_kept_or_lost :
    (putEmployee sampleHashSync sampleStore
        (sampleRequest [("salary", .string "0")] none)).queries
      = [⟨"UPDATE employee SET salary = ? WHERE id = ?", [.string "0", .string "7"]⟩]
    ∧ truthy ((sampleRequest [("name", .string "Ana"), ("email", .string "ana@example.org"),
        ("password", .nat 12345), ("salary", .nat 0), ("category_id", .nat 2)]
          none).field "password") = true
    ∧ (addEmployee sampleHashSync sampleStore
        (sampleRequest [("name", .string "Ana"), ("email", .string "ana@example.org"),
          ("password", .nat 12345), ("salary", .nat 0), ("category_id", .nat 2)]
          none)).queries = [] :=
  ⟨rfl, by decide, rfl⟩

/-- Claim C9, amended. Creation and update treat falsy values differently; the
number `0` and the empty string are falsy, the string `'0'` is not.  On
`POST /add_employee` with the required fields present and the hash returned by
the library, an absent, empty or zero (falsy) address is bound as `''` and a
falsy salary as `0`, at the positions of the address and salary columns.  On
`PUT /employee/:id` a falsy salary (such as the number `0`) or address (such
as `''`) counts as absent: no statement of the run has a `salary = ?`
(respectively `address = ?`) clause, whereas a truthy salary (such as `'0'`)
has its clause; and a request with a body object that supplies nothing but
salary `0` and/or address `''` is rejected with 400 `'No fields to update.'`
without any store call. -/
theorem zero_and_empty_on_create_and_update
    (hashSync : HashSync) (db : Store) (req : Request) :
    (truthy (.nat 0) = false ∧ truthy (.string "") = false ∧ truthy (.string "0") = true)
    ∧ (∀ h, truthy (req.field "name") = true → truthy (req.field "email") = true →
        truthy (req.field "password") = true → truthy (req.field "category_id") = true →
        hashSync (req.field "password") 10 = .ok h →
        ∃ q, (addEmployee hashSync db req).queries = [q]
          ∧ q.sql = insertEmployeeSql
          ∧ (truthy (req.field "address") = false → q.values[3]? = some (.string ""))
          ∧ (truthy (req.field "salary") = false → q.values[4]? = some (.nat 0)))
    ∧ (∀ q ∈ (putEmployee hashSync db req).queries, ∃ h,
        q.sql = "UPDATE employee SET " ++ ", ".intercalate (updateClauses req h)
          ++ " WHERE id = ?"
        ∧ (truthy (req.field "salary") = false → "salary = ?" ∉ updateClauses req h)
        ∧ (truthy (req.field "address") = false → "address = ?" ∉ updateClauses req h)
        ∧ (truthy (req.field "salary") = true → "salary = ?" ∈ updateClauses req h))
    ∧ (req.body ≠ none →
        (req.field "salary" = .nat 0 ∨ req.field "salary" = .undefined) →
        (req.field "address" = .string "" ∨ req.field "address" = .undefined) →
        req.field "name" = .undefined → req.field "email" = .undefined →
        req.field "password" = .undefined → req.field "category_id" = .undefined →
        req.file = none →
        putEmployee hashSync db req
            = ⟨[], .sent ⟨400, .json (.object [("Status", .bool false),
                ("message", .string "No fields to update.")])⟩⟩
          ∧ (putEmployee hashSync db req).queries = []) := by
  refine ⟨⟨rfl, rfl, rfl⟩, ?_, ?_, ?_⟩
  · intro h hn he hp hc hh
    refine ⟨⟨insertEmployeeSql, insertValues req h⟩,
      addEmployee_queries hashSync db req h hn he hp hc hh, rfl, ?_, ?_⟩
    · intro ha
      simp [insertValues, jsOr, ha]
    · intro hs
      simp [insertValues, jsOr, hs]
  · intro q hq
    obtain ⟨h, _, _, rfl, _⟩ := putEmployee_query_shape hashSync db req q hq
    refine ⟨h, rfl, ?_, ?_, ?_⟩
    · intro hs hmem
      rcases mem_updateClauses req h _ hmem with
        ⟨hc, _⟩ | ⟨hc, _⟩ | ⟨hc, _⟩ | ⟨hc, _⟩ | ⟨_, ht⟩ | ⟨hc, _⟩ | ⟨hc, _⟩
      · exact absurd hc (by decide)
      · exact absurd hc (by decide)
      · exact absurd hc (by decide)
      · exact absurd hc (by decide)
      · rw [hs] at ht
        exact absurd ht (by decide)
      · exact absurd hc (by decide)
      · exact absurd hc (by decide)
    · intro ha hmem
      rcases mem_updateClauses req h _ hmem with
        ⟨hc, _⟩ | ⟨hc, _⟩ | ⟨hc, _⟩ | ⟨_, ht⟩ | ⟨hc, _⟩ | ⟨hc, _⟩ | ⟨hc, _⟩
      · exact absurd hc (by decide)
      · exact absurd hc (by decide)
      · exact absurd hc (by decide)
      · rw [ha] at ht
        exact absurd ht (by decide)
      · exact absurd hc (by decide)
      · exact absurd hc (by decide)
      · exact absurd hc (by decide)
    · intro hs
      simp only [updateClauses, List.mem_map]
      refine ⟨("salary", req.field "salary", req.field "salary"), ?_, rfl⟩
      simp [presentFields, updateFieldOrder, hs]
  · intro hb hs ha hn he hp hc hfile
    have hs' : truthy (req.field "salary") = false := by
      rcases hs with hs | hs <;> rw [hs] <;> rfl
    have ha' : truthy (req.field "address") = false := by
      rcases ha with ha | ha <;> rw [ha] <;> rfl
    have hi : truthy (imageField req) = false := by
      simp [imageField, hfile, truthy]
    have hrun := putEmployee_no_fields hashSync db req hb (by rw [hn]; rfl) (by rw [he]; rfl)
      (by rw [hp]; rfl) ha' hs' (by rw [hc]; rfl) hi
    exact ⟨hrun, by rw [hrun]; rfl⟩

theorem zero_and_empty_on_create_and_update_witness :
    (∃ q, (addEmployee sampleHashSync sampleStore
          (sampleRequest [("name", .string "Ana"), ("email", .string "ana@example.org"),
            ("password", .string "s3cret"), ("address", .string ""), ("salary", .nat 0),
            ("category_id", .nat 2)] none)).queries = [q]
        ∧ q.values[3]? = some (.string "") ∧ q.values[4]? = some (.nat 0))
    ∧ putEmployee sampleHashSync sampleStore
        (sampleRequest [("address", .string ""), ("salary", .nat 0)] none)
      = ⟨[], .sent ⟨400, .json (.object [("Status", .bool false),
          ("message", .string "No fields to update.")])⟩⟩ :=
  ⟨by
    obtain ⟨q, h1, h2, h3, h4⟩ := (zero_and_empty_on_create_and_update sampleHashSync sampleStore
      (sampleRequest [("name", .string "Ana"), ("email", .string "ana@example.org"),
        ("password", .string "s3cret"), ("address", .string ""), ("salary", .nat 0),
        ("category_id", .nat 2)] none)).2.1 (.string "$2b$10$s3cret")
      (by decide) (by decide) (by decide) (by decide) rfl
    exact ⟨q, h1, h3 (by decide), h4 (by decide)⟩,
   ((zero_and_empty_on_create_and_update sampleHashSync sampleStore
      (sampleRequest [("address", .string ""), ("salary", .nat 0)] none)).2.2.2
      (sampleRequest_body _ _) (Or.inl rfl) (Or.inl rfl) rfl rfl rfl rfl rfl).1⟩

/-- Claim C7 as stated fails: a creation whose name equals its password: the
hash differs from the plaintext and is what the password column receives, yet
the plaintext string occurs among the bound values, as the value of the name
column. -/
theorem plaintext_occurs_among_bound_values :
    sampleHashSync (.string "hunter2") 10 = .ok (.string "$2b$10$hunter2")
    ∧ JSValue.string "$2b$10$hunter2" ≠ JSValue.string "hunter2"
    ∧ (addEmployee sampleHashSync sampleStore
        (sampleRequest [("name", .string "hunter2"), ("email", .string "h@example.org"),
          ("password", .string "hunter2"), ("category_id", .nat 1)] none)).queries
      = [⟨insertEmployeeSql,
          [.string "hunter2", .string "h@example.org", .string "$2b$10$hunter2", .string "",
           .nat 0, .string "", .nat 1]⟩]
    ∧ JSValue.string "hunter2"
      ∈ [JSValue.string "hunter2", .string "h@example.org", .string "$2b$10$hunter2",
          .string "", .nat 0, .string "", .nat 1] := by
  exact ⟨rfl, string_ne _ _ (by decide), rfl, List.mem_cons_self _ _⟩

/-- Claim C7, amended. For a creation or an update that carries a password
whose hash the library returns as `h`, every statement issued binds `h` to the
password column (third value of the insert; the value at the position of the
`password = ?` clause of the update, which is among its clauses), so when the
hash differs from the plaintext the password column does not receive the
plaintext; and the plaintext occurs among the bound values only as the value
bound for another column or as the path id. -/
theorem password_column_receives_hash
    (hashSync : HashSync) (db : Store) (req : Request) (h : JSValue)
    (hp : truthy (req.field "password") = true)
    (hh : hashSync (req.field "password") 10 = .ok h)
    (hne : h ≠ req.field "password") :
    (∀ q ∈ (addEmployee hashSync db req).queries,
        q.sql = insertEmployeeSql ∧ q.values[2]? = some h
        ∧ q.values[2]? ≠ some (req.field "password")
        ∧ (req.field "password" ∈ q.values →
            req.field "password" ∈ [req.field "name", req.field "email",
              jsOr (req.field "address") (.string ""), jsOr (req.field "salary") (.nat 0),
              imageOrEmpty req, req.field "category_id"]))
    ∧ (∀ q ∈ (putEmployee hashSync db req).queries,
        q.sql = "UPDATE employee SET " ++ ", ".intercalate (updateClauses req h)
          ++ " WHERE id = ?"
        ∧ "password = ?" ∈ updateClauses req h
        ∧ (∀ i : Nat, (updateClauses req h)[i]? = some "password = ?" →
            q.values[i]? = some h ∧ q.values[i]? ≠ some (req.field "password"))
        ∧ (req.field "password" ∈ q.values →
            req.field "password" ∈ [req.field "name", req.field "email", req.field "address",
              req.field "salary", req.field "category_id", imageField req, req.params "id"])) := by
  constructor
  · intro q hq
    obtain ⟨h', hh', rfl⟩ := addEmployee_query_shape hashSync db req q hq
    rw [hh] at hh'
    injection hh' with hh'
    subst hh'
    refine ⟨rfl, rfl, ?_, ?_⟩
    · intro hEq
      simp [insertValues] at hEq
      exact hne hEq
    · intro hmem
      simp only [insertValues, List.mem_cons, List.mem_singleton, List.not_mem_nil,
        or_false] at hmem ⊢
      rcases hmem with hm | hm | hm | hm | hm | hm | hm
      · exact Or.inl hm
      · exact Or.inr (Or.inl hm)
      · exact absurd hm.symm hne
      · exact Or.inr (Or.inr (Or.inl hm))
      · exact Or.inr (Or.inr (Or.inr (Or.inl hm)))
      · exact Or.inr (Or.inr (Or.inr (Or.inr (Or.inl hm))))
      · exact Or.inr (Or.inr (Or.inr (Or.inr (Or.inr hm))))
  · intro q hq
    obtain ⟨h', hh', _, rfl, _⟩ := putEmployee_query_shape hashSync db req q hq
    have hh'' := hh' hp
    rw [hh] at hh''
    injection hh'' with hh''
    subst hh''
    have hfs : ∀ f ∈ presentFields req h, f.1 ++ " = ?" = "password = ?" → f.2.2 = h := by
      intro f hf hc
      obtain ⟨hmem, _⟩ := mem_presentFields req h f hf
      simp only [updateFieldOrder, List.mem_cons, List.mem_singleton, List.not_mem_nil,
        or_false] at hmem
      rcases hmem with rfl | rfl | rfl | rfl | rfl | rfl | rfl
      · exact absurd (show "name" ++ " = ?" = "password = ?" from hc) (by decide)
      · exact absurd (show "email" ++ " = ?" = "password = ?" from hc) (by decide)
      · rfl
      · exact absurd (show "address" ++ " = ?" = "password = ?" from hc) (by decide)
      · exact absurd (show "salary" ++ " = ?" = "password = ?" from hc) (by decide)
      · exact absurd (show "category_id" ++ " = ?" = "password = ?" from hc) (by decide)
      · exact absurd (show "image" ++ " = ?" = "password = ?" from hc) (by decide)
    refine ⟨rfl, ?_, ?_, ?_⟩
    · simp only [updateClauses, List.mem_map]
      refine ⟨("password", req.field "password", h), ?_, rfl⟩
      simp [presentFields, updateFieldOrder, hp]
    · intro i hi
      have hv : (specUpdateValues req h)[i]? = some h :=
        value_at_clause (presentFields req h) [req.params "id"] "password = ?" h hfs i hi
      refine ⟨hv, ?_⟩
      show (specUpdateValues req h)[i]? ≠ some (req.field "password")
      rw [hv]
      intro hEq
      injection hEq with hEq
      exact hne hEq
    · intro hmem
      simp only [specUpdateValues, List.mem_append, List.mem_map, List.mem_singleton] at hmem
      simp only [List.mem_cons, List.mem_singleton, List.not_mem_nil, or_false]
      rcases hmem with ⟨f, hf, hfv⟩ | hid
      · obtain ⟨hmem, _⟩ := mem_presentFields req h f hf
        simp only [updateFieldOrder, List.mem_cons, List.mem_singleton, List.not_mem_nil,
          or_false] at hmem
        rcases hmem with rfl | rfl | rfl | rfl | rfl | rfl | rfl
        · exact Or.inl hfv.symm
        · exact Or.inr (Or.inl hfv.symm)
        · exact absurd hfv hne
        · exact Or.inr (Or.inr (Or.inl hfv.symm))
        · exact Or.inr (Or.inr (Or.inr (Or.inl hfv.symm)))
        · exact Or.inr (Or.inr (Or.inr (Or.inr (Or.inl hfv.symm))))
        · exact Or.inr (Or.inr (Or.inr (Or.inr (Or.inr (Or.inl hfv.symm)))))
      · exact Or.inr (Or.inr (Or.inr (Or.inr (Or.inr (Or.inr hid)))))

theorem password_column_receives_hash_witness :
    (∀ q ∈ (addEmployee sampleHashSync sampleStore
          (sampleRequest [("name", .string "Ana"), ("email", .string "ana@example.org"),
            ("password", .string "s3cret"), ("category_id", .nat 2)] none)).queries,
        q.values[2]? = some (.string "$2b$10$s3cret"))
    ∧ (∀ q ∈ (putEmployee sampleHashSync sampleStore
          (sampleRequest [("name", .string "Ana"), ("password", .string "s3cret")] none)).queries,
        q.values[1]? = some (.string "$2b$10$s3cret")
        ∧ q.values[1]? ≠ some (.string "s3cret")) :=
  ⟨fun q hq => ((password_column_receives_hash sampleHashSync sampleStore
        (sampleRequest [("name", .string "Ana"), ("email", .string "ana@example.org"),
          ("password", .string "s3cret"), ("category_id", .nat 2)] none)
        (.string "$2b$10$s3cret") (by decide) rfl (string_ne _ _ (by decide))).1 q hq).2.1,
   fun q hq => ((password_column_receives_hash sampleHashSync sampleStore
        (sampleRequest [("name", .string "Ana"), ("password", .string "s3cret")] none)
        (.string "$2b$10$s3cret") (by decide) rfl (string_ne _ _ (by decide))).2 q hq).2.2.1 1 rfl⟩

end EmployeeApi
